import Mathlib

/-!
Shallow embedding of `src/src/main.rs` of ronaldofjc/rust-actix-memory-repository:
an in-memory book store behind a mutex, with a single creation handler
`create_book` doing presence validation, a duplicate-title scan and an append.

Modelling choices:
* `Uuid::new_v4()` and the two `Local::now()` calls are impure; each handler
  invocation is given an environment `Env` carrying the UUID the generator
  would produce and the two successive clock readings (the source reads the
  clock twice: once for `created_at`, once for `updated_at`).
* Timestamps and UUIDs are opaque to the program logic, so they are modelled
  as `Nat`.
* `books.lock().unwrap()` panics when the mutex is poisoned; panics are
  modelled by the `CallResult.panicked` constructor, which also records the
  store contents at the moment of the panic (the source mutates the store
  only by the final `push`, so every panic leaves it unchanged).
* The `entity` module (`Book`, `CreateBook`, `Error`) is declared by
  `mod entity` but its files are not in `src/`; the field structure is taken
  from the uses in `main.rs` and from the spec's data model: `CreateBook` has
  three optional fields, `Book` has the six fields built in the handler, and
  `Error` is the `{message, code}` error body.
-/

/-- CreateBook request payload (`entity::create_book::CreateBook`): optional
`title`, `author`, `pages`, per the `is_none`/`unwrap` uses in `main.rs` and
the spec's transient-input model. `pages` is an integer count, modelled as
`Int` (no range validation exists). -/
structure CreateBook where
  title : Option String
  author : Option String
  pages : Option Int
deriving DecidableEq, Repr

/-- Book entity (`entity::book::Book`): the six fields constructed in
`create_book` in `main.rs`. `id` models the `Uuid`, `created_at`/`updated_at`
model the `chrono` timestamps. -/
structure Book where
  id : Nat
  title : String
  author : String
  pages : Int
  created_at : Nat
  updated_at : Nat
deriving DecidableEq, Repr

/-- Error body (`entity::error::Error`): per the spec's error body shape
`{"message": <string>, "code": <string>}` and the two-argument
`Error::new(message, code)` calls in `main.rs`. -/
structure Error where
  message : String
  code : String
deriving DecidableEq, Repr

/-- Constructor `Error::new`. -/
def Error.new (message : String) (code : String) : Error :=
  { message := message, code := code }

/-- Canonical reason phrases of the `http` crate for the status codes used by
`main.rs` (`StatusCode::canonical_reason`). -/
def canonicalReason : Nat → String
  | 400 => "Bad Request"
  | 422 => "Unprocessable Entity"
  | _ => "<unknown status code>"

/-- Display rendering of `http::StatusCode` (what `.to_string()` produces in
`main.rs`): the numeric code followed by a space and the canonical reason
phrase, e.g. `"400 Bad Request"`. -/
def statusCodeToString (code : Nat) : String :=
  toString code ++ " " ++ canonicalReason code

/-- HTTP responses the handler can build: `HttpResponse::BadRequest().json(e)`,
`HttpResponse::UnprocessableEntity().json(e)`, `HttpResponse::Created().json(b)`. -/
inductive HttpResponse where
  | badRequest (body : Error)
  | unprocessableEntity (body : Error)
  | created (body : Book)
deriving DecidableEq, Repr

/-- Numeric status of a response. -/
def HttpResponse.status : HttpResponse → Nat
  | .badRequest _ => 400
  | .unprocessableEntity _ => 422
  | .created _ => 201

/-- Outcome of one handler invocation: either a response together with the
store contents after the call, or a panic (an `unwrap` on `Err`/`None`)
together with the store contents at the moment of the panic. -/
inductive CallResult where
  | ok (resp : HttpResponse) (books : List Book)
  | panicked (msg : String) (books : List Book)
deriving DecidableEq, Repr

/-- Per-call environment: the value `Uuid::new_v4()` would return and the two
successive `Local::now()` readings of the call (`now1` is read for
`created_at`, `now2` for `updated_at`, in source order). -/
structure Env where
  fresh_id : Nat
  now1 : Nat
  now2 : Nat
deriving DecidableEq, Repr

/-- Validation predicate `has_invalid_params_on_create` of `main.rs`:
true when any of `title`, `author`, `pages` is absent. -/
def has_invalid_params_on_create (payload : CreateBook) : Bool :=
  payload.title.isNone || payload.author.isNone || payload.pages.isNone

/-- Handler `create_book` of `main.rs`.

`lockPoisoned` models the state `data.books.lock()` finds the mutex in:
`.unwrap()` on a poisoned lock panics before the store is read. After
validation, `payload.title.clone().unwrap()` (inside the `find` closure and
in the `Book` construction), `payload.author.clone().unwrap()` and
`payload.pages.clone().unwrap()` panic on `None`; these are the `.panicked`
branches below. On success the book is pushed and returned by value. -/
def create_book (env : Env) (lockPoisoned : Bool) (payload : CreateBook)
    (books : List Book) : CallResult :=
  if has_invalid_params_on_create payload then
    .ok (.badRequest (Error.new "Invalid params" (statusCodeToString 400))) books
  else if lockPoisoned then
    .panicked "PoisonError" books
  else
    match payload.title with
    | none => .panicked "called Option::unwrap on a None value" books
    | some t =>
      match books.find? (fun book => book.title == t) with
      | some _ =>
          .ok (.unprocessableEntity
                (Error.new "Book already exists" (statusCodeToString 422))) books
      | none =>
        match payload.author, payload.pages with
        | some a, some p =>
            let book : Book :=
              { id := env.fresh_id, title := t, author := a, pages := p
                created_at := env.now1, updated_at := env.now2 }
            .ok (.created book) (books ++ [book])
        | _, _ => .panicked "called Option::unwrap on a None value" books

/-- The initial store: `MemoryRepository::init()` wraps an empty vector. -/
def MemoryRepository.init : List Book := []

/-- Store contents after one (non-poisoned) handler invocation. -/
def stepStore (books : List Book) (req : Env × CreateBook) : List Book :=
  match create_book req.1 false req.2 books with
  | .ok _ books2 => books2
  | .panicked _ books2 => books2

/-- Store contents after a sequence of handler invocations (the mutex
serialises concurrent requests into some sequence). -/
def runCreates : List (Env × CreateBook) → List Book → List Book
  | [], books => books
  | r :: rs, books => runCreates rs (stepStore books r)

/-- Store contents plus counts (successes, failures) after a sequence of
handler invocations. -/
def runWithCounts : List (Env × CreateBook) → List Book → List Book × Nat × Nat
  | [], books => (books, 0, 0)
  | r :: rs, books =>
    match create_book r.1 false r.2 books with
    | .ok (.created _) books2 =>
        let rest := runWithCounts rs books2
        (rest.1, rest.2.1 + 1, rest.2.2)
    | .ok _ books2 =>
        let rest := runWithCounts rs books2
        (rest.1, rest.2.1, rest.2.2 + 1)
    | .panicked _ books2 =>
        let rest := runWithCounts rs books2
        (rest.1, rest.2.1, rest.2.2 + 1)

/-- A call result is a 400 validation failure. -/
def isValidationError : CallResult → Bool
  | .ok (.badRequest _) _ => true
  | _ => false

/-- A call result is a 422 conflict. -/
def isConflict : CallResult → Bool
  | .ok (.unprocessableEntity _) _ => true
  | _ => false

/-- A call result is a 201 creation. -/
def isCreated : CallResult → Bool
  | .ok (.created _) _ => true
  | _ => false

/-- A call result is a panic. -/
def isPanic : CallResult → Bool
  | .panicked _ _ => true
  | _ => false

/-- Modelled from the spec: the HTTP runtime layer that surfaces a handler
panic to the caller is not part of `src/src/main.rs` (it lives in the server
framework, which the spec scopes out at its interface boundary); per the spec
it surfaces the internal error as a 5xx response with only a generic message. -/
def surfacePanic (_msg : String) : Nat × String :=
  (500, "Internal Server Error")

/-- All stored titles are pairwise distinct. -/
def uniqueTitles (books : List Book) : Prop :=
  books.Pairwise (fun a b => a.title ≠ b.title)

/-! ## Helper lemmas -/

/-- Exhaustive shape of a `create_book` call: a 201 that appends the new book,
or a 400, 422 or panic that leaves the store exactly as it was. -/
theorem create_book_shape (env : Env) (p : Bool) (payload : CreateBook)
    (books : List Book) :
    (∃ b, create_book env p payload books = .ok (.created b) (books ++ [b])) ∨
    (∃ e, create_book env p payload books = .ok (.badRequest e) books) ∨
    (∃ e, create_book env p payload books = .ok (.unprocessableEntity e) books) ∨
    (∃ m, create_book env p payload books = .panicked m books) := by
  unfold create_book
  split
  · exact .inr (.inl ⟨_, rfl⟩)
  · split
    · exact .inr (.inr (.inr ⟨_, rfl⟩))
    · split
      · exact .inr (.inr (.inr ⟨_, rfl⟩))
      · split
        · exact .inr (.inr (.inl ⟨_, rfl⟩))
        · split
          · exact .inl ⟨_, rfl⟩
          · exact .inr (.inr (.inr ⟨_, rfl⟩))

/-- Anatomy of a successful creation: the new book's fields come from the
request and the per-call environment, the store gets exactly that book
appended, no stored title equals the new title, the lock was not poisoned and
validation passed. -/
theorem create_book_created_spec (env : Env) (p : Bool) (payload : CreateBook)
    (books : List Book) (b : Book) (books2 : List Book)
    (h : create_book env p payload books = .ok (.created b) books2) :
    books2 = books ++ [b] ∧ b.id = env.fresh_id ∧ b.created_at = env.now1 ∧
      b.updated_at = env.now2 ∧ payload.title = some b.title ∧
      payload.author = some b.author ∧ payload.pages = some b.pages ∧
      (∀ x ∈ books, x.title ≠ b.title) ∧ p = false ∧
      has_invalid_params_on_create payload = false := by
  unfold create_book at h
  split at h
  · simp at h
  next hval =>
    split at h
    · simp at h
    next hp =>
      split at h
      · simp at h
      next t htitle =>
        split at h
        · simp at h
        next hfind =>
          split at h
          next a pg hauthor hpages =>
            simp only [CallResult.ok.injEq, HttpResponse.created.injEq] at h
            obtain ⟨hb, hbooks⟩ := h
            subst hb
            refine ⟨hbooks.symm, rfl, rfl, rfl, htitle, hauthor, hpages, ?_, ?_, ?_⟩
            · intro x hx
              have := List.find?_eq_none.mp hfind x hx
              simpa using this
            · simpa using hp
            · simpa using hval
          · simp at h

/-- The 400 branch is taken exactly when the validation predicate holds. -/
theorem isValidationError_create_book (env : Env) (p : Bool)
    (payload : CreateBook) (books : List Book) :
    isValidationError (create_book env p payload books) =
      has_invalid_params_on_create payload := by
  unfold create_book
  split
  next hval => simp [isValidationError, hval]
  next hval =>
    simp only [Bool.not_eq_true] at hval
    rw [hval]
    split
    · rfl
    · split
      · rfl
      · split
        · rfl
        · split <;> rfl

/-- Validation-passing payloads have all three fields present. -/
theorem valid_params_isSome (payload : CreateBook)
    (hv : has_invalid_params_on_create payload = false) :
    payload.title.isSome = true ∧ payload.author.isSome = true ∧
      payload.pages.isSome = true := by
  unfold has_invalid_params_on_create at hv
  simp only [Bool.or_eq_false_iff, Option.isNone_eq_false_iff] at hv
  exact ⟨hv.1.1, hv.1.2, hv.2⟩

/-- A successful creation, spelled out: when validation passes and no stored
title equals the request's title, the handler returns 201 with the book built
from the request and the environment, and appends exactly that book. -/
theorem create_book_success (env : Env) (payload : CreateBook)
    (books : List Book) (t a : String) (pg : Int)
    (ht : payload.title = some t) (ha : payload.author = some a)
    (hp : payload.pages = some pg)
    (hnodup : ∀ x ∈ books, x.title ≠ t) :
    create_book env false payload books =
      .ok (.created ⟨env.fresh_id, t, a, pg, env.now1, env.now2⟩)
        (books ++ [⟨env.fresh_id, t, a, pg, env.now1, env.now2⟩]) := by
  have hv : has_invalid_params_on_create payload = false := by
    simp [has_invalid_params_on_create, ht, ha, hp]
  have hfind : books.find? (fun book => book.title == t) = none :=
    List.find?_eq_none.mpr (fun x hx => by simpa using hnodup x hx)
  simp [create_book, hv, ht, ha, hp, hfind]

/-- A duplicate title, spelled out: when validation passes and some stored
book's title equals the request's title, the handler returns 422 and leaves
the store unchanged. -/
theorem create_book_conflict (env : Env) (payload : CreateBook)
    (books : List Book) (t : String)
    (ht : payload.title = some t)
    (hv : has_invalid_params_on_create payload = false)
    (hdup : ∃ x ∈ books, x.title = t) :
    create_book env false payload books =
      .ok (.unprocessableEntity
            (Error.new "Book already exists" (statusCodeToString 422))) books := by
  have hsome : (books.find? (fun book => book.title == t)).isSome = true := by
    rw [List.find?_isSome]
    obtain ⟨x, hx, hxt⟩ := hdup
    exact ⟨x, hx, by simp [hxt]⟩
  obtain ⟨y, hy⟩ := Option.isSome_iff_exists.mp hsome
  simp [create_book, hv, ht, hy]

/-- One step either leaves the store unchanged or appends one book whose
title was not yet stored. -/
theorem stepStore_shape (books : List Book) (req : Env × CreateBook) :
    stepStore books req = books ∨
      ∃ b, stepStore books req = books ++ [b] ∧ ∀ x ∈ books, x.title ≠ b.title := by
  unfold stepStore
  rcases create_book_shape req.1 false req.2 books with ⟨b, h⟩ | ⟨e, h⟩ | ⟨e, h⟩ | ⟨m, h⟩
  · right
    refine ⟨b, by rw [h], ?_⟩
    exact (create_book_created_spec _ _ _ _ _ _ h).2.2.2.2.2.2.2.1
  · left; rw [h]
  · left; rw [h]
  · left; rw [h]

/-- Running a sequence of requests only ever appends to the store. -/
theorem runCreates_extends (reqs : List (Env × CreateBook)) (books : List Book) :
    ∃ tail, runCreates reqs books = books ++ tail := by
  induction reqs generalizing books with
  | nil => exact ⟨[], by simp [runCreates]⟩
  | cons r rs ih =>
    rcases stepStore_shape books r with h | ⟨b, h, _⟩
    · obtain ⟨tail, htail⟩ := ih (stepStore books r)
      exact ⟨tail, by rw [runCreates, htail, h]⟩
    · obtain ⟨tail, htail⟩ := ih (stepStore books r)
      exact ⟨b :: tail, by rw [runCreates, htail, h]; simp⟩

/-- One step preserves pairwise-distinct titles. -/
theorem uniqueTitles_stepStore (books : List Book) (req : Env × CreateBook)
    (h : uniqueTitles books) : uniqueTitles (stepStore books req) := by
  rcases stepStore_shape books req with heq | ⟨b, heq, hnew⟩
  · rwa [heq]
  · rw [heq]
    unfold uniqueTitles at h ⊢
    rw [List.pairwise_append]
    exact ⟨h, List.pairwise_singleton _ _, fun x hx y hy => by
      rw [List.mem_singleton] at hy
      subst hy
      exact hnew x hx⟩

/-- Running any sequence of requests preserves pairwise-distinct titles. -/
theorem uniqueTitles_runCreates (reqs : List (Env × CreateBook))
    (books : List Book) (h : uniqueTitles books) :
    uniqueTitles (runCreates reqs books) := by
  induction reqs generalizing books with
  | nil => simpa [runCreates] using h
  | cons r rs ih => exact ih (stepStore books r) (uniqueTitles_stepStore books r h)

/-- Counting run: the final store size is the initial size plus the number of
successful calls, and successes plus failures partition the request list. -/
theorem runWithCounts_spec (reqs : List (Env × CreateBook)) (books : List Book) :
    (runWithCounts reqs books).1.length =
      books.length + (runWithCounts reqs books).2.1 ∧
    (runWithCounts reqs books).2.1 + (runWithCounts reqs books).2.2 =
      reqs.length := by
  induction reqs generalizing books with
  | nil => simp [runWithCounts]
  | cons r rs ih =>
    rcases create_book_shape r.1 false r.2 books with ⟨b, h⟩ | ⟨e, h⟩ | ⟨e, h⟩ | ⟨m, h⟩
    · obtain ⟨ih1, ih2⟩ := ih (books ++ [b])
      simp only [runWithCounts, h]
      constructor
      · simp only [ih1, List.length_append, List.length_cons, List.length_nil]
        omega
      · simp only [List.length_cons]
        omega
    · obtain ⟨ih1, ih2⟩ := ih books
      simp only [runWithCounts, h]
      exact ⟨ih1, by simp only [List.length_cons]; omega⟩
    · obtain ⟨ih1, ih2⟩ := ih books
      simp only [runWithCounts, h]
      exact ⟨ih1, by simp only [List.length_cons]; omega⟩
    · obtain ⟨ih1, ih2⟩ := ih books
      simp only [runWithCounts, h]
      exact ⟨ih1, by simp only [List.length_cons]; omega⟩

/-! ## Claims -/

/-- C1: starting from the initial (empty) store, every sequence of
`create_book` calls keeps the stored titles pairwise distinct — at most one
stored book per title — and a call whose present title exactly matches some
stored title fails with the 422 conflict response and leaves the store
unchanged. -/
theorem claim1_title_uniqueness_invariant :
    (∀ reqs : List (Env × CreateBook),
        uniqueTitles (runCreates reqs MemoryRepository.init)) ∧
    (∀ env payload books t, payload.title = some t →
        has_invalid_params_on_create payload = false →
        (∃ x ∈ books, x.title = t) →
        create_book env false payload books =
          .ok (.unprocessableEntity
                (Error.new "Book already exists" (statusCodeToString 422)))
            books) := by
  constructor
  · intro reqs
    exact uniqueTitles_runCreates reqs MemoryRepository.init
      (by simp [MemoryRepository.init, uniqueTitles])
  · intro env payload books t ht hv hdup
    exact create_book_conflict env payload books t ht hv hdup

/-- Witness for C1: two requests with the same title; the second conflicts
and the store keeps a single "Dune". -/
theorem claim1_title_uniqueness_invariant_witness :
    uniqueTitles (runCreates
      [(⟨7, 5, 5⟩, ⟨some "Dune", some "Herbert", some 412⟩),
       (⟨8, 6, 6⟩, ⟨some "Dune", some "Herbert", some 500⟩)]
      MemoryRepository.init) ∧
    create_book ⟨8, 6, 6⟩ false ⟨some "Dune", some "Herbert", some 500⟩
        [⟨7, "Dune", "Herbert", 412, 5, 5⟩] =
      .ok (.unprocessableEntity
            (Error.new "Book already exists" (statusCodeToString 422)))
        [⟨7, "Dune", "Herbert", 412, 5, 5⟩] :=
  ⟨claim1_title_uniqueness_invariant.1 _,
   claim1_title_uniqueness_invariant.2 ⟨8, 6, 6⟩ _ _ "Dune" rfl (by decide)
     ⟨⟨7, "Dune", "Herbert", 412, 5, 5⟩, by simp, rfl⟩⟩

/-- C2: the handler produces the 400 validation failure iff at least one of
`title`, `author`, `pages` is absent; with all three present no validation
error arises, whatever the lock state or store contents. -/
theorem claim2_validation_iff (env : Env) (p : Bool) (payload : CreateBook)
    (books : List Book) :
    isValidationError (create_book env p payload books) = true ↔
      (payload.title = none ∨ payload.author = none ∨ payload.pages = none) := by
  rw [isValidationError_create_book]
  simp only [has_invalid_params_on_create, Bool.or_eq_true,
    Option.isNone_iff_eq_none]
  tauto

/-- Witness for C2 at a concrete missing-fields request. -/
theorem claim2_validation_iff_witness :
    (isValidationError
        (create_book ⟨9, 7, 7⟩ false ⟨some "Dune", none, none⟩ []) = true ↔
      ((some "Dune" : Option String) = none ∨ (none : Option String) = none ∨
        (none : Option Int) = none)) :=
  claim2_validation_iff ⟨9, 7, 7⟩ false ⟨some "Dune", none, none⟩ []

/-- C3: a successful call appends exactly one book, every failing call
(validation failure, conflict or panic) leaves the store exactly unchanged,
after any request sequence the store size is the initial size plus the number
of successful calls (successes and failures partitioning the sequence), and a
run only ever appends — earlier entries are never removed or mutated. -/
theorem claim3_append_only :
    (∀ env p payload books resp books2,
        create_book env p payload books = .ok resp books2 →
          (∃ b, resp = .created b ∧ books2 = books ++ [b]) ∨
          (books2 = books ∧ ∀ b, resp ≠ .created b)) ∧
    (∀ env p payload books m books2,
        create_book env p payload books = .panicked m books2 → books2 = books) ∧
    (∀ reqs books,
        (runWithCounts reqs books).1.length =
          books.length + (runWithCounts reqs books).2.1 ∧
        (runWithCounts reqs books).2.1 + (runWithCounts reqs books).2.2 =
          reqs.length) ∧
    (∀ reqs books, ∃ tail, runCreates reqs books = books ++ tail) := by
  refine ⟨?_, ?_, runWithCounts_spec, runCreates_extends⟩
  · intro env p payload books resp books2 h
    rcases create_book_shape env p payload books with ⟨b, hb⟩ | ⟨e, hb⟩ | ⟨e, hb⟩ | ⟨m, hb⟩
    · rw [h] at hb
      simp only [CallResult.ok.injEq] at hb
      exact .inl ⟨b, hb.1, hb.2.symm ▸ hb.2⟩
    · rw [h] at hb
      simp only [CallResult.ok.injEq] at hb
      refine .inr ⟨hb.2, fun b hc => ?_⟩
      rw [hb.1] at hc
      exact HttpResponse.noConfusion hc
    · rw [h] at hb
      simp only [CallResult.ok.injEq] at hb
      refine .inr ⟨hb.2, fun b hc => ?_⟩
      rw [hb.1] at hc
      exact HttpResponse.noConfusion hc
    · rw [h] at hb
      exact CallResult.noConfusion hb
  · intro env p payload books m books2 h
    rcases create_book_shape env p payload books with ⟨b, hb⟩ | ⟨e, hb⟩ | ⟨e, hb⟩ | ⟨m2, hb⟩
    · rw [h] at hb; exact CallResult.noConfusion hb
    · rw [h] at hb; exact CallResult.noConfusion hb
    · rw [h] at hb; exact CallResult.noConfusion hb
    · rw [h] at hb
      simp only [CallResult.panicked.injEq] at hb
      exact hb.2

/-- Witness for C3: a concrete successful call appends its one book; a
concrete panicking call leaves the empty store empty. -/
theorem claim3_append_only_witness :
    ((∃ b, HttpResponse.created (⟨7, "Dune", "Herbert", 412, 5, 5⟩ : Book) =
          .created b ∧
        ([⟨7, "Dune", "Herbert", 412, 5, 5⟩] : List Book) = [] ++ [b]) ∨
      (([⟨7, "Dune", "Herbert", 412, 5, 5⟩] : List Book) = ([] : List Book) ∧
        ∀ b, HttpResponse.created (⟨7, "Dune", "Herbert", 412, 5, 5⟩ : Book) ≠
          .created b)) ∧
    (([] : List Book) = ([] : List Book)) :=
  ⟨claim3_append_only.1 ⟨7, 5, 5⟩ false ⟨some "Dune", some "Herbert", some 412⟩
      [] (.created ⟨7, "Dune", "Herbert", 412, 5, 5⟩)
      [⟨7, "Dune", "Herbert", 412, 5, 5⟩] (by decide),
   claim3_append_only.2.1 ⟨1, 1, 1⟩ true ⟨some "A", some "B", some 1⟩ []
      "PoisonError" [] (by decide)⟩

/-- C4: when validation passed and the lock is poisoned, the call panics with
the store untouched — it produces no HTTP response and does not read or write
the store — and the runtime boundary (modelled from the spec) surfaces the
panic as a 500 with only a generic message. -/
theorem claim4_poisoned_lock_fails_loudly (env : Env) (payload : CreateBook)
    (books : List Book)
    (hv : has_invalid_params_on_create payload = false) :
    create_book env true payload books = .panicked "PoisonError" books ∧
    isPanic (create_book env true payload books) = true ∧
    surfacePanic "PoisonError" = (500, "Internal Server Error") := by
  have h : create_book env true payload books = .panicked "PoisonError" books := by
    simp [create_book, hv]
  exact ⟨h, by rw [h]; rfl, rfl⟩

/-- Witness for C4 at a concrete valid request against a poisoned lock. -/
theorem claim4_poisoned_lock_fails_loudly_witness :
    create_book ⟨1, 2, 3⟩ true ⟨some "Dune", some "Herbert", some 412⟩ [] =
        .panicked "PoisonError" [] ∧
    isPanic (create_book ⟨1, 2, 3⟩ true
        ⟨some "Dune", some "Herbert", some 412⟩ []) = true ∧
    surfacePanic "PoisonError" = (500, "Internal Server Error") :=
  claim4_poisoned_lock_fails_loudly ⟨1, 2, 3⟩
    ⟨some "Dune", some "Herbert", some 412⟩ [] (by decide)

/-- C5 counterexample: the source reads the clock once for `created_at` and
again for `updated_at`; when the two readings differ, the freshly created
book has `created_at ≠ updated_at`, refuting the claimed equality. -/
theorem claim5_counterexample :
    create_book ⟨7, 0, 1⟩ false ⟨some "Dune", some "Herbert", some 412⟩ [] =
      .ok (.created ⟨7, "Dune", "Herbert", 412, 0, 1⟩)
        [⟨7, "Dune", "Herbert", 412, 0, 1⟩] ∧
    (⟨7, "Dune", "Herbert", 412, 0, 1⟩ : Book).created_at ≠
      (⟨7, "Dune", "Herbert", 412, 0, 1⟩ : Book).updated_at := by decide

/-- C5 amended: both timestamps are set at creation, but by two successive
clock readings — `created_at` from the first, `updated_at` from the second —
so they are equal exactly when the two readings coincide. -/
theorem claim5_two_clock_readings (env : Env) (p : Bool) (payload : CreateBook)
    (books : List Book) (b : Book) (books2 : List Book)
    (h : create_book env p payload books = .ok (.created b) books2) :
    b.created_at = env.now1 ∧ b.updated_at = env.now2 ∧
      (b.created_at = b.updated_at ↔ env.now1 = env.now2) := by
  obtain ⟨-, -, h1, h2, -⟩ := create_book_created_spec env p payload books b books2 h
  exact ⟨h1, h2, by rw [h1, h2]⟩

/-- Witness for C5 (amended) at a call whose two clock readings coincide. -/
theorem claim5_two_clock_readings_witness :
    (⟨7, "Dune", "Herbert", 412, 5, 5⟩ : Book).created_at = (5 : Nat) ∧
    (⟨7, "Dune", "Herbert", 412, 5, 5⟩ : Book).updated_at = (5 : Nat) ∧
    ((⟨7, "Dune", "Herbert", 412, 5, 5⟩ : Book).created_at =
        (⟨7, "Dune", "Herbert", 412, 5, 5⟩ : Book).updated_at ↔
      (5 : Nat) = (5 : Nat)) :=
  claim5_two_clock_readings ⟨7, 5, 5⟩ false
    ⟨some "Dune", some "Herbert", some 412⟩ []
    ⟨7, "Dune", "Herbert", 412, 5, 5⟩ [⟨7, "Dune", "Herbert", 412, 5, 5⟩]
    (by decide)

/-- C6 counterexample: `StatusCode::to_string()` renders the numeric code
followed by the canonical reason, so the missing-field body carries
`code = "400 Bad Request"`, not `"400"` as claimed. -/
theorem claim6_counterexample :
    create_book ⟨1, 0, 0⟩ false ⟨some "Dune", none, none⟩ [] =
      .ok (.badRequest (Error.new "Invalid params" "400 Bad Request")) [] ∧
    (Error.new "Invalid params" "400 Bad Request").code ≠ "400" ∧
    create_book ⟨1, 0, 0⟩ false ⟨some "Dune", none, none⟩ [] ≠
      .ok (.badRequest (Error.new "Invalid params" "400")) [] := by decide

/-- C6 amended: every error body carries as its `code` the full Display
rendering of the status code — numeric code plus canonical reason: a
missing-field request yields message "Invalid params" with code
"400 Bad Request", a duplicate-title request yields message
"Book already exists" with code "422 Unprocessable Entity". -/
theorem claim6_error_code_display (env : Env) (p : Bool) (payload : CreateBook)
    (books : List Book) (t : String) :
    (has_invalid_params_on_create payload = true →
      create_book env p payload books =
        .ok (.badRequest (Error.new "Invalid params" "400 Bad Request"))
          books) ∧
    (payload.title = some t → has_invalid_params_on_create payload = false →
      (∃ x ∈ books, x.title = t) →
      create_book env false payload books =
        .ok (.unprocessableEntity
              (Error.new "Book already exists" "422 Unprocessable Entity"))
          books) := by
  have h400 : statusCodeToString 400 = "400 Bad Request" := rfl
  have h422 : statusCodeToString 422 = "422 Unprocessable Entity" := rfl
  constructor
  · intro hv
    rw [← h400]
    simp [create_book, hv]
  · intro ht hv hdup
    rw [← h422]
    exact create_book_conflict env payload books t ht hv hdup

/-- Witness for C6 (amended) at the two concrete error requests. -/
theorem claim6_error_code_display_witness :
    create_book ⟨1, 0, 0⟩ false ⟨some "Dune", none, none⟩ [] =
      .ok (.badRequest (Error.new "Invalid params" "400 Bad Request")) [] ∧
    create_book ⟨8, 6, 6⟩ false ⟨some "Dune", some "Herbert", some 500⟩
        [⟨7, "Dune", "Herbert", 412, 5, 5⟩] =
      .ok (.unprocessableEntity
            (Error.new "Book already exists" "422 Unprocessable Entity"))
        [⟨7, "Dune", "Herbert", 412, 5, 5⟩] :=
  ⟨(claim6_error_code_display ⟨1, 0, 0⟩ false ⟨some "Dune", none, none⟩ []
      "x").1 (by decide),
   (claim6_error_code_display ⟨8, 6, 6⟩ false
      ⟨some "Dune", some "Herbert", some 500⟩
      [⟨7, "Dune", "Herbert", 412, 5, 5⟩] "Dune").2 rfl (by decide)
      ⟨⟨7, "Dune", "Herbert", 412, 5, 5⟩, by simp, rfl⟩⟩

/-- C7: on success the handler returns 201 with a book whose `title`,
`author` and `pages` are copied unchanged from the request and whose `id` is
the freshly generated identifier, and the very same book value is appended to
the store. -/
theorem claim7_success_construction (env : Env) (payload : CreateBook)
    (books : List Book) (t a : String) (pg : Int)
    (ht : payload.title = some t) (ha : payload.author = some a)
    (hp : payload.pages = some pg)
    (hnodup : ∀ x ∈ books, x.title ≠ t) :
    ∃ b, create_book env false payload books = .ok (.created b) (books ++ [b]) ∧
      b.title = t ∧ b.author = a ∧ b.pages = pg ∧ b.id = env.fresh_id ∧
      (HttpResponse.created b).status = 201 :=
  ⟨⟨env.fresh_id, t, a, pg, env.now1, env.now2⟩,
   create_book_success env payload books t a pg ht ha hp hnodup,
   rfl, rfl, rfl, rfl, rfl⟩

/-- Witness for C7 at the spec's scenario 1 request. -/
theorem claim7_success_construction_witness :
    ∃ b, create_book ⟨7, 5, 5⟩ false ⟨some "Dune", some "Herbert", some 412⟩
        [] = .ok (.created b) ([] ++ [b]) ∧
      b.title = "Dune" ∧ b.author = "Herbert" ∧ b.pages = (412 : Int) ∧
      b.id = (7 : Nat) ∧ (HttpResponse.created b).status = 201 :=
  claim7_success_construction ⟨7, 5, 5⟩ ⟨some "Dune", some "Herbert", some 412⟩
    [] "Dune" "Herbert" 412 rfl rfl rfl (by simp)

/-- C8: duplicate detection is exact, case-sensitive string equality — a
valid call conflicts iff some stored book's title is exactly the request's
title, and whenever every stored title differs in at least one character
(for example only in letter case or surrounding whitespace) creation
succeeds. -/
theorem claim8_exact_title_match (env : Env) (payload : CreateBook)
    (books : List Book) (t : String)
    (ht : payload.title = some t)
    (hv : has_invalid_params_on_create payload = false) :
    (isConflict (create_book env false payload books) = true ↔
      ∃ x ∈ books, x.title = t) ∧
    ((∀ x ∈ books, x.title ≠ t) →
      ∃ b, create_book env false payload books =
        .ok (.created b) (books ++ [b]) ∧ b.title = t) := by
  obtain ⟨hts, has, hps⟩ := valid_params_isSome payload hv
  obtain ⟨a, ha⟩ := Option.isSome_iff_exists.mp has
  obtain ⟨pg, hp⟩ := Option.isSome_iff_exists.mp hps
  constructor
  · constructor
    · intro hc
      by_contra hnot
      push_neg at hnot
      rw [create_book_success env payload books t a pg ht ha hp hnot] at hc
      simp [isConflict] at hc
    · intro hdup
      rw [create_book_conflict env payload books t ht hv hdup]
      rfl
  · intro hnodup
    exact ⟨_, create_book_success env payload books t a pg ht ha hp hnodup, rfl⟩

/-- Witness for C8: with "Dune" stored, the lowercase title "dune" finds no
conflict, so that call would create. -/
theorem claim8_exact_title_match_witness :
    ((isConflict (create_book ⟨9, 2, 2⟩ false
          ⟨some "dune", some "Herbert", some 1⟩
          [⟨7, "Dune", "Herbert", 412, 5, 5⟩]) = true ↔
        ∃ x ∈ ([⟨7, "Dune", "Herbert", 412, 5, 5⟩] : List Book),
          x.title = "dune") ∧
      ((∀ x ∈ ([⟨7, "Dune", "Herbert", 412, 5, 5⟩] : List Book),
          x.title ≠ "dune") →
        ∃ b, create_book ⟨9, 2, 2⟩ false ⟨some "dune", some "Herbert", some 1⟩
            [⟨7, "Dune", "Herbert", 412, 5, 5⟩] =
          .ok (.created b) ([⟨7, "Dune", "Herbert", 412, 5, 5⟩] ++ [b]) ∧
          b.title = "dune")) :=
  claim8_exact_title_match ⟨9, 2, 2⟩ ⟨some "dune", some "Herbert", some 1⟩
    [⟨7, "Dune", "Herbert", 412, 5, 5⟩] "dune" rfl (by decide)

/-- C9 counterexample: a request whose title is present but the empty string
passes validation and is stored, so a reachable store contains a book with
empty title — refuting the claimed non-emptiness invariant. -/
theorem claim9_counterexample :
    runCreates [(⟨3, 1, 1⟩, ⟨some "", some "Anon", some 10⟩)]
        MemoryRepository.init = [⟨3, "", "Anon", 10, 1, 1⟩] ∧
    (⟨3, "", "Anon", 10, 1, 1⟩ : Book).title = "" := by decide

/-- C9 amended: no title non-emptiness invariant holds — presence is the only
check, so a call whose title is present but empty passes validation and (when
no stored book already has the empty title) succeeds, storing a book whose
title is the empty string. -/
theorem claim9_empty_title_accepted (env : Env) (payload : CreateBook)
    (books : List Book) (a : String) (pg : Int)
    (ht : payload.title = some "") (ha : payload.author = some a)
    (hp : payload.pages = some pg)
    (hnodup : ∀ x ∈ books, x.title ≠ "") :
    has_invalid_params_on_create payload = false ∧
    ∃ b, create_book env false payload books =
      .ok (.created b) (books ++ [b]) ∧ b.title = "" := by
  refine ⟨by simp [has_invalid_params_on_create, ht, ha, hp], ?_⟩
  exact ⟨_, create_book_success env payload books "" a pg ht ha hp hnodup, rfl⟩

/-- Witness for C9 (amended) at a concrete empty-title request. -/
theorem claim9_empty_title_accepted_witness :
    has_invalid_params_on_create ⟨some "", some "Anon", some 10⟩ = false ∧
    ∃ b, create_book ⟨3, 1, 1⟩ false ⟨some "", some "Anon", some 10⟩ [] =
      .ok (.created b) ([] ++ [b]) ∧ b.title = "" :=
  claim9_empty_title_accepted ⟨3, 1, 1⟩ ⟨some "", some "Anon", some 10⟩ []
    "Anon" 10 rfl rfl rfl (by simp)

/-- C10: when validation passed, all three request fields are `Some`, so the
option unwraps in the handler cannot hit their `None` panic branch: with the
lock healthy the call never panics. -/
theorem claim10_no_unwrap_panic (env : Env) (payload : CreateBook)
    (books : List Book)
    (hv : has_invalid_params_on_create payload = false) :
    payload.title.isSome = true ∧ payload.author.isSome = true ∧
      payload.pages.isSome = true ∧
      isPanic (create_book env false payload books) = false := by
  obtain ⟨hts, has, hps⟩ := valid_params_isSome payload hv
  refine ⟨hts, has, hps, ?_⟩
  obtain ⟨t, ht⟩ := Option.isSome_iff_exists.mp hts
  obtain ⟨a, ha⟩ := Option.isSome_iff_exists.mp has
  obtain ⟨pg, hp⟩ := Option.isSome_iff_exists.mp hps
  by_cases hdup : ∃ x ∈ books, x.title = t
  · rw [create_book_conflict env payload books t ht hv hdup]; rfl
  · push_neg at hdup
    rw [create_book_success env payload books t a pg ht ha hp hdup]; rfl

/-- Witness for C10 at the spec's scenario 1 request. -/
theorem claim10_no_unwrap_panic_witness :
    (some "Dune" : Option String).isSome = true ∧
    (some "Herbert" : Option String).isSome = true ∧
    (some (412 : Int) : Option Int).isSome = true ∧
    isPanic (create_book ⟨7, 5, 5⟩ false
      ⟨some "Dune", some "Herbert", some 412⟩ []) = false :=
  claim10_no_unwrap_panic ⟨7, 5, 5⟩ ⟨some "Dune", some "Herbert", some 412⟩
    [] (by decide)
